import Mathlib

/-!
Verification of the SmartHomeSystem controller (atmega_sys_control.c).

The development shallowly embeds the persisted-settings codec
(packet_config and var_config), the two serial peer exchanges of the
main loop, and the button-driven edit steps for the temperature and
humidity panels.  Machine bytes are modelled as Nat with explicit
masking and `% 256` wherever the C code truncates to uint8_t.
-/

set_option maxRecDepth 40000

namespace SmartHome

/-- Persisted EEPROM slots used by the controller: the settings slots
TEMPR_0, TEMPR_1, HUMID_0, HUMID_1, LIGHT_0 and the packet cache
PACKET0, PACKET1, PACKET2. -/
structure Mem where
  tempr0 : Nat
  tempr1 : Nat
  humid0 : Nat
  humid1 : Nat
  light0 : Nat
  packet0 : Nat
  packet1 : Nat
  packet2 : Nat
deriving DecidableEq

/-- Local variables of main that persist across the two peer exchanges
of a tick: io_char, temp_char, humid_char and the sensed readings
temp_sen, humid_sen. -/
structure Loc where
  ioChar : Nat
  tempChar : Nat
  humidChar : Nat
  tempSen : Nat
  humidSen : Nat
deriving DecidableEq

/-- packet_config (source lines 400-472): reads the settings slots,
checks the temperature BCD digits (line 414, the data_corruption call),
and rebuilds the three packet bytes.  Returns the updated memory and
whether the corruption fault was signalled. -/
def packet_config (m : Mem) : Mem × Bool :=
  let data_0 := m.tempr0
  let data_1 := m.tempr1
  let data_2 := m.humid0
  let data_3 := m.humid1
  let data_4 := m.light0
  let tempr_high := (data_0 &&& 0xF0) >>> 4
  let tempr_low := data_0 &&& 0x0F
  let fault := decide (tempr_high > 9 ∨ tempr_low > 9)
  let mode := (data_1 &&& 0xC0) >>> 6
  let tempr_val := tempr_high * 10 + tempr_low
  let ac_auto := mode == 0
  let fan_on := mode == 1
  let heater_on := mode == 2
  let cooler_on := mode == 3
  let humid_high := (data_2 &&& 0xF0) >>> 4
  let humid_low := data_2 &&& 0x0F
  let hum_e := (data_3 &&& 0x80) >>> 7
  let humid_val := humid_high * 10 + humid_low
  let humid_on := hum_e == 1
  let light := (data_4 &&& 0xC0) >>> 6
  let lights := light == 2
  let lights_auto := light == 0
  let byte_bools :=
    lights_auto.toNat <<< 6 ||| lights.toNat <<< 5 ||| cooler_on.toNat <<< 4 |||
    heater_on.toNat <<< 3 ||| fan_on.toNat <<< 2 ||| ac_auto.toNat <<< 1
  let byte_tempr := tempr_val &&& 0x7F
  let byte_humid := humid_on.toNat <<< 7 ||| (humid_val &&& 0x7F)
  ({ m with packet0 := byte_bools, packet1 := byte_tempr, packet2 := byte_humid }, fault)

/-- var_config (source lines 345-398): reads the three packet bytes and
rewrites the settings slots.  The `% 256` on the shifted most
significant digits mirrors the uint8_t truncation of
`uint8_t humid_MSD = (byte_humid / 10) << 4;` in the C code. -/
def var_config (m : Mem) : Mem :=
  let byte_bools := m.packet0
  let byte_tempr := m.packet1
  let byte_humid := m.packet2
  let tempr_MSD := ((byte_tempr / 10) <<< 4) % 256
  let tempr_LSD := byte_tempr % 10
  let tempr_BCD := tempr_MSD ||| tempr_LSD
  let tempr_set :=
    ((if byte_bools &&& 0x02 ≠ 0 then 0
      else if byte_bools &&& 0x04 ≠ 0 then 1
      else if byte_bools &&& 0x08 ≠ 0 then 2 else 3) <<< 6) % 256
  let humid_MSD := ((byte_humid / 10) <<< 4) % 256
  let humid_LSD := byte_humid % 10
  let humid_BCD := humid_MSD ||| humid_LSD
  let humid_set := byte_humid &&& 0x80
  let light_set :=
    ((if byte_bools &&& 0x40 ≠ 0 then 0
      else if byte_bools &&& 0x20 ≠ 0 then 2 else 1) <<< 6) % 256
  { m with tempr0 := tempr_BCD, tempr1 := tempr_set,
           humid0 := humid_BCD, humid1 := humid_set, light0 := light_set }

/-- Logical view of the persisted Settings entity of the spec:
temperature target and mode, humidity target and enable, light mode.
Mode codes follow the storage encoding of the source:
temperatureMode 0 Auto, 1 Fan, 2 Heat, 3 Cool;
lightMode 0 Auto, 1 Off, 2 On. -/
@[ext]
structure Settings where
  temperatureTarget : Nat
  temperatureMode : Nat
  humidityTarget : Nat
  humidityEnabled : Bool
  lightMode : Nat
deriving DecidableEq

/-- The canonical stored-byte image of a Settings value, following the
slot layouts documented at source lines 481-482, 585-586, 680-681:
BCD digits in the value bytes, mode bits in bits 7:6, humidifier
enable in bit 7.  Packet slots start at zero. -/
def memOfSettings (S : Settings) : Mem :=
  { tempr0 := ((S.temperatureTarget / 10) <<< 4) ||| (S.temperatureTarget % 10)
    tempr1 := S.temperatureMode <<< 6
    humid0 := ((S.humidityTarget / 10) <<< 4) ||| (S.humidityTarget % 10)
    humid1 := if S.humidityEnabled then 0x80 else 0
    light0 := S.lightMode <<< 6
    packet0 := 0
    packet1 := 0
    packet2 := 0 }

/-- Reads the logical Settings back from the stored bytes, with the
same digit and bit extractions the source uses when it reads the
slots (packet_config lines 412-445). -/
def settingsOfMem (m : Mem) : Settings :=
  { temperatureTarget := ((m.tempr0 &&& 0xF0) >>> 4) * 10 + (m.tempr0 &&& 0x0F)
    temperatureMode := (m.tempr1 &&& 0xC0) >>> 6
    humidityTarget := ((m.humid0 &&& 0xF0) >>> 4) * 10 + (m.humid0 &&& 0x0F)
    humidityEnabled := ((m.humid1 &&& 0x80) >>> 7) == 1
    lightMode := (m.light0 &&& 0xC0) >>> 6 }

/-- Settings-to-packet direction of the codec: store the Settings and
run packet_config, collecting the three packet bytes. -/
def encode (S : Settings) : Nat × Nat × Nat :=
  let m := (packet_config (memOfSettings S)).1
  (m.packet0, m.packet1, m.packet2)

/-- Packet-to-Settings direction of the codec: place the packet bytes
in the packet slots, run var_config, and read the settings slots. -/
def decode (p : Nat × Nat × Nat) : Settings :=
  settingsOfMem (var_config
    { tempr0 := 0, tempr1 := 0, humid0 := 0, humid1 := 0, light0 := 0,
      packet0 := p.1, packet1 := p.2.1, packet2 := p.2.2 })

/-- Validity of a Settings value as used by the round-trip claim:
targets in 0-99 (hence both decimal digits in 0-9), a legal
temperature mode and a legal light mode. -/
def Settings.valid (S : Settings) : Prop :=
  S.temperatureTarget ≤ 99 ∧ S.temperatureMode ≤ 3 ∧
  S.humidityTarget ≤ 99 ∧ S.lightMode ≤ 2

instance (S : Settings) : Decidable S.valid := by
  unfold Settings.valid; infer_instance

/-- The five persisted Settings slots of a memory, as a tuple. -/
def settingsSlots (m : Mem) : Nat × Nat × Nat × Nat × Nat :=
  (m.tempr0, m.tempr1, m.humid0, m.humid1, m.light0)

/-- Result of an Imp exchange: memory, locals, bytes written to the
Imp peer and bytes written to the Xbee peer. -/
structure ImpRes where
  mem : Mem
  loc : Loc
  impOut : List Nat
  xbeeOut : List Nat

/-- The Imp peer exchange of the main loop (source lines 218-262).
The input list holds the bytes the UART would deliver; a missing byte
is the 0xFF timeout value that usart_in_imp returns on expiry.
Header 0xA9 0x65, then three payload bytes into io_char, temp_char,
humid_char; a 0xFF payload byte aborts.  Top bit of temp_char set:
status request, packet_config then send the packet bytes to the Imp.
Otherwise: store the raw payload in the packet slots, var_config,
and forward the raw bytes to the Xbee. -/
def imp_exchange (m : Mem) (l : Loc) (input : List Nat) : ImpRes :=
  let b1 := input.getD 0 0xFF
  if b1 = 0xA9 then
    let b2 := input.getD 1 0xFF
    if b2 = 0x65 then
      let b3 := input.getD 2 0xFF
      if b3 ≠ 0xFF then
        let l := { l with ioChar := b3 }
        let b4 := input.getD 3 0xFF
        if b4 ≠ 0xFF then
          let l := { l with tempChar := b4 }
          let b5 := input.getD 4 0xFF
          if b5 ≠ 0xFF then
            let l := { l with humidChar := b5 }
            if b4 &&& 0x80 ≠ 0 then
              let mp := (packet_config m).1
              ⟨mp, l, [mp.packet0, mp.packet1, mp.packet2], []⟩
            else
              let m2 := var_config { m with packet0 := b3, packet1 := b4, packet2 := b5 }
              ⟨m2, l, [], [b3, b4, b5]⟩
          else ⟨m, l, [], []⟩
        else ⟨m, l, [], []⟩
      else ⟨m, l, [], []⟩
    else ⟨m, l, [], []⟩
  else ⟨m, l, [], []⟩

/-- Result of an Xbee exchange: memory, locals and the bytes written
to the Xbee peer. -/
structure XbeeRes where
  mem : Mem
  loc : Loc
  xbeeOut : List Nat

/-- The Xbee sensor exchange of the main loop (source lines 269-290).
Header 0xE3, then two payload bytes into temp_char and humid_char;
a 0xFF byte aborts.  On success the sensed readings are stored with
the top bit masked off and the acknowledgement frame 0xD4, io_char,
temp_char, humid_char is sent.  The section performs no EEPROM write,
so the memory passes through unchanged. -/
def xbee_exchange (m : Mem) (l : Loc) (input : List Nat) : XbeeRes :=
  let b1 := input.getD 0 0xFF
  if b1 = 0xE3 then
    let b2 := input.getD 1 0xFF
    if b2 ≠ 0xFF then
      let l := { l with tempChar := b2 }
      let b3 := input.getD 2 0xFF
      if b3 ≠ 0xFF then
        let l2 := { l with humidChar := b3, humidSen := b3 &&& 0x7F, tempSen := b2 &&& 0x7F }
        ⟨m, l2, [0xD4, l.ioChar, b2, b3]⟩
      else ⟨m, l, []⟩
    else ⟨m, l, []⟩
  else ⟨m, l, []⟩

/-- An Imp exchange aborts when a header byte fails to match or a
payload byte is the 0xFF timeout and disconnect value. -/
def imp_aborted (input : List Nat) : Bool :=
  let b1 := input.getD 0 0xFF
  if b1 = 0xA9 then
    let b2 := input.getD 1 0xFF
    if b2 = 0x65 then
      let b3 := input.getD 2 0xFF
      if b3 ≠ 0xFF then
        let b4 := input.getD 3 0xFF
        if b4 ≠ 0xFF then
          let b5 := input.getD 4 0xFF
          decide (b5 = 0xFF)
        else true
      else true
    else true
  else true

/-- An Xbee exchange aborts when the header fails to match or a
payload byte is the 0xFF timeout and disconnect value. -/
def xbee_aborted (input : List Nat) : Bool :=
  let b1 := input.getD 0 0xFF
  if b1 = 0xE3 then
    let b2 := input.getD 1 0xFF
    if b2 ≠ 0xFF then
      let b3 := input.getD 2 0xFF
      decide (b3 = 0xFF)
    else true
  else true

/-- Temperature increment of tempr_config (source lines 504-515),
on the digit pair: add one to the low digit with carry, then wrap a
value of the form 9X with X positive back to 60. -/
def tempr_inc (p : Nat × Nat) : Nat × Nat :=
  let low := p.2 + 1
  let q := if low > 9 then (p.1 + 1, 0) else (p.1, low)
  if q.1 = 9 ∧ q.2 > 0 then (6, 0) else q

/-- Temperature decrement of tempr_config (source lines 516-527),
on the digit pair, with uint8_t wraparound of the decrements: subtract
one from the low digit with borrow, then wrap a high digit of 5 back
to 90. -/
def tempr_dec (p : Nat × Nat) : Nat × Nat :=
  let low := (p.2 + 255) % 256
  let q := if low > 9 then ((p.1 + 255) % 256, 9) else (p.1, low)
  if q.1 = 5 then (9, 0) else q

/-- One call of tempr_config (source lines 479-539) restricted to its
state effect: given the editing level, the changed flag, the two local
data bytes and the debounced button value, return the updated triple
(changed, data_0, data_1).  The `% 256` on the written byte mirrors
the uint8_t assignment at lines 531-533. -/
def tempr_config_step (editing changed d0 d1 btn : Nat) : Nat × Nat × Nat :=
  let high := (d0 &&& 0xF0) >>> 4
  let low := d0 &&& 0x0F
  let mode := (d1 &&& 0xC0) >>> 6
  if editing ≠ 0 ∧ btn ≠ 0 then
    if editing = 1 then
      let mode2 := if mode = 0 then 1 else if mode = 1 then 2 else if mode = 2 then 3 else 0
      (1, ((high <<< 4) % 256) ||| low, (mode2 <<< 6) % 256)
    else
      let q := if btn = 1 then tempr_inc (high, low)
               else if btn = 2 then tempr_dec (high, low)
               else (high, low)
      (1, ((q.1 <<< 4) % 256) ||| q.2, (mode <<< 6) % 256)
  else (changed, d0, d1)

/-- A sequence of value-edit ticks on the temperature panel in the
EditValue phase (editing = 2), folding tempr_config_step over the
button values. -/
def tempr_edit_run (c d0 d1 : Nat) (btns : List Nat) : Nat × Nat × Nat :=
  btns.foldl (fun s b => tempr_config_step 2 s.1 s.2.1 s.2.2 b) (c, d0, d1)

/-- The stored temperature byte holds a target in the inclusive range
60 to 90: it is a byte, both BCD digits are decimal, and the two-digit
value lies in the range. -/
def tempr_target_in_range (d0 : Nat) : Prop :=
  d0 < 256 ∧ (d0 &&& 0xF0) >>> 4 ≤ 9 ∧ (d0 &&& 0x0F) ≤ 9 ∧
  60 ≤ ((d0 &&& 0xF0) >>> 4) * 10 + (d0 &&& 0x0F) ∧
  ((d0 &&& 0xF0) >>> 4) * 10 + (d0 &&& 0x0F) ≤ 90

instance (d0 : Nat) : Decidable (tempr_target_in_range d0) := by
  unfold tempr_target_in_range; infer_instance

/-- Humidity increment of humid_config (source lines 606-615), on the
digit pair: add five to the low digit, carry when it exceeds nine, and
wrap a high digit of ten to zero. -/
def humid_inc (p : Nat × Nat) : Nat × Nat :=
  let low := p.2 + 5
  let q := if low > 9 then (p.1 + 1, 0) else (p.1, low)
  if q.1 = 10 then (0, q.2) else q

/-- Humidity decrement of humid_config (source lines 616-626), on the
digit pair, with uint8_t wraparound of the subtractions: subtract five
from the low digit, borrow sets it to five, and a high digit above
nine is forced to nine. -/
def humid_dec (p : Nat × Nat) : Nat × Nat :=
  let low := (p.2 + 251) % 256
  let q := if low > 9 then ((p.1 + 255) % 256, 5) else (p.1, low)
  if q.1 > 9 then (9, q.2) else q

/-- One call of humid_config (source lines 583-637) restricted to its
state effect, in the same shape as tempr_config_step. -/
def humid_config_step (editing changed d0 d1 btn : Nat) : Nat × Nat × Nat :=
  let high := (d0 &&& 0xF0) >>> 4
  let low := d0 &&& 0x0F
  let hum_e := (d1 &&& 0x80) >>> 7
  if editing ≠ 0 ∧ btn ≠ 0 then
    if editing = 1 then
      let hum_e2 := if hum_e = 0 then 1 else 0
      (1, ((high <<< 4) % 256) ||| low, (hum_e2 <<< 7) % 256)
    else
      let q := if btn = 1 then humid_inc (high, low)
               else if btn = 2 then humid_dec (high, low)
               else (high, low)
      (1, ((q.1 <<< 4) % 256) ||| q.2, (hum_e <<< 7) % 256)
  else (changed, d0, d1)

/-- The two BCD digits of a stored byte. -/
def digitPair (d : Nat) : Nat × Nat :=
  ((d &&& 0xF0) >>> 4, d &&& 0x0F)

/-- Modelled from the claim wording for C6: increment adds five to the
low digit, sets it to zero and increments the high digit when the low
digit exceeds nine, and wraps the high digit to zero when it reaches
ten. -/
def humid_inc_claim (h l : Nat) : Nat × Nat :=
  let low := l + 5
  if low > 9 then
    (if h + 1 = 10 then 0 else h + 1, 0)
  else (h, low)

/-- Modelled from the claim wording for C6: decrement subtracts five
from the low digit, sets it to five and decrements the high digit on
borrow, and sets the high digit to nine when it underflows. -/
def humid_dec_claim (h l : Nat) : Nat × Nat :=
  if l < 5 then
    (if h = 0 then 9 else h - 1, 5)
  else (h, l - 5)

/-- Editing-level transition of btn_db_mod for the temperature panel
(source lines 744-752): an edit-button press advances editing
cyclically through 0, 1, 2. -/
def btn_mod_editing (editing : Nat) (editPress : Bool) : Nat :=
  if editPress then (if editing + 1 > 2 then 0 else editing + 1) else editing

/-- State of one inner-loop iteration on the temperature panel:
editing level, changed flag, the two local data bytes and the two
persisted bytes they shadow. -/
structure EditSt where
  editing : Nat
  changed : Nat
  d0 : Nat
  d1 : Nat
  e0 : Nat
  e1 : Nat

/-- One inner-loop tick on the temperature panel (source lines
182-198): run btn_db_mod, then, when not editing and the changed flag
is set, invoke the EEPROM update pair (the commit), then run
tempr_config.  Returns the next state and whether the commit was
invoked this tick.  The source never clears the changed flag. -/
def edit_tick (s : EditSt) (editPress : Bool) (btn : Nat) : EditSt × Bool :=
  let editing := btn_mod_editing s.editing editPress
  let invoked := decide (editing = 0 ∧ s.changed ≠ 0)
  let e0 := if editing = 0 ∧ s.changed ≠ 0 then s.d0 else s.e0
  let e1 := if editing = 0 ∧ s.changed ≠ 0 then s.d1 else s.e1
  let r := tempr_config_step editing s.changed s.d0 s.d1 btn
  (⟨editing, r.1, r.2.1, r.2.2, e0, e1⟩, invoked)

/-- Bounded check for the temperature component of the round trip. -/
lemma c1aux_t : ∀ t < 100, (decode (encode ⟨t, 0, 0, false, 0⟩)).temperatureTarget = t := by
  decide

/-- Bounded check for the temperature-mode component of the round trip. -/
lemma c1aux_mode : ∀ mo < 4, ∀ li < 3,
    (decode (encode ⟨0, mo, 0, false, li⟩)).temperatureMode = mo := by
  decide

/-- Bounded check for the light-mode component of the round trip. -/
lemma c1aux_light : ∀ mo < 4, ∀ li < 3,
    (decode (encode ⟨0, mo, 0, false, li⟩)).lightMode = li := by
  decide

/-- Bounded check for the humidity-target component of the round trip
with the humidifier disabled. -/
lemma c1aux_h : ∀ h < 100, (decode (encode ⟨0, 0, h, false, 0⟩)).humidityTarget = h := by
  decide

/-- Bounded check for the humidity-enable component of the round trip
with the humidifier disabled. -/
lemma c1aux_he : ∀ h < 100, (decode (encode ⟨0, 0, h, false, 0⟩)).humidityEnabled = false := by
  decide

/-- C1 counterexample: the valid Settings value with target 75, mode
Auto, humidity 40 enabled, light Auto does not round trip: var_config
builds the humidity BCD byte from the raw packet byte including the
enable bit, so the decoded humidity target comes back as 8. -/
theorem c1_counterexample :
    Settings.valid ⟨75, 0, 40, true, 0⟩ ∧
    decode (encode ⟨75, 0, 40, true, 0⟩) ≠ ⟨75, 0, 40, true, 0⟩ ∧
    (decode (encode ⟨75, 0, 40, true, 0⟩)).humidityTarget = 8 := by
  decide

/-- C1 amended: for every valid Settings value whose humidityEnabled
flag is false, decoding the packet produced by encoding it yields the
same Settings value; with the flag set the humidity target is
corrupted, as the counterexample shows. -/
theorem c1_roundtrip (S : Settings) (hv : S.valid) (he : S.humidityEnabled = false) :
    decode (encode S) = S := by
  obtain ⟨t, mo, h, e, li⟩ := S
  obtain ⟨h1, h2, h3, h4⟩ := hv
  simp only at h1 h2 h3 h4 he
  subst he
  ext
  · exact c1aux_t t (by omega)
  · exact c1aux_mode mo (by omega) li (by omega)
  · exact c1aux_h h (by omega)
  · exact c1aux_he h (by omega)
  · exact c1aux_light mo (by omega) li (by omega)

/-- C1 witness: the amended round trip at a concrete valid Settings
value with the humidifier disabled. -/
theorem c1_roundtrip_witness :
    Settings.valid ⟨75, 0, 40, false, 1⟩ ∧
    decode (encode ⟨75, 0, 40, false, 1⟩) = ⟨75, 0, 40, false, 1⟩ :=
  ⟨by decide, c1_roundtrip ⟨75, 0, 40, false, 1⟩ (by decide) rfl⟩

/-- Frame lemma: an aborted Imp exchange leaves the whole memory and
the sensed readings untouched. -/
lemma imp_abort_frame (m : Mem) (l : Loc) (input : List Nat)
    (h : imp_aborted input = true) :
    (imp_exchange m l input).mem = m ∧
    (imp_exchange m l input).loc.tempSen = l.tempSen ∧
    (imp_exchange m l input).loc.humidSen = l.humidSen := by
  by_cases c1 : input[0]?.getD 255 = 0xA9
  · by_cases c2 : input[1]?.getD 255 = 0x65
    · by_cases c3 : input[2]?.getD 255 = 0xFF
      · simp [imp_exchange, c1, c2, c3]
      · by_cases c4 : input[3]?.getD 255 = 0xFF
        · simp [imp_exchange, c1, c2, c3, c4]
        · by_cases c5 : input[4]?.getD 255 = 0xFF
          · simp [imp_exchange, c1, c2, c3, c4, c5]
          · simp [imp_aborted, c1, c2, c3, c4, c5] at h
    · simp [imp_exchange, c1, c2]
  · simp [imp_exchange, c1]

/-- Frame lemma: an aborted Xbee exchange leaves the memory and the
sensed readings untouched. -/
lemma xbee_abort_frame (m : Mem) (l : Loc) (input : List Nat)
    (h : xbee_aborted input = true) :
    (xbee_exchange m l input).mem = m ∧
    (xbee_exchange m l input).loc.tempSen = l.tempSen ∧
    (xbee_exchange m l input).loc.humidSen = l.humidSen := by
  by_cases c1 : input[0]?.getD 255 = 0xE3
  · by_cases c2 : input[1]?.getD 255 = 0xFF
    · simp [xbee_exchange, c1, c2]
    · by_cases c3 : input[2]?.getD 255 = 0xFF
      · simp [xbee_exchange, c1, c2, c3]
      · simp [xbee_aborted, c1, c2, c3] at h
  · simp [xbee_exchange, c1]

/-- C2: for an Imp exchange that reads its three payload bytes
successfully, a status request (top bit of the temperature byte set)
leaves the persisted Settings slots unchanged, while a set command
(top bit clear) rewrites them with the var_config decode of the raw
payload. -/
theorem c2_imp_settings_effect (m : Mem) (l : Loc) (f t h : Nat) (rest : List Nat)
    (hf : f ≠ 0xFF) (ht : t ≠ 0xFF) (hh : h ≠ 0xFF) :
    settingsSlots (imp_exchange m l (0xA9 :: 0x65 :: f :: t :: h :: rest)).mem =
      (if t &&& 0x80 ≠ 0 then settingsSlots m
       else settingsSlots (var_config { m with packet0 := f, packet1 := t, packet2 := h })) := by
  by_cases h80 : t &&& 0x80 = 0
  · simp [imp_exchange, hf, ht, hh, h80]
  · simp [imp_exchange, settingsSlots, packet_config, hf, ht, hh, h80]

/-- C2 witness: a concrete status request leaves the Settings slots of
a concrete memory unchanged. -/
theorem c2_imp_settings_effect_witness :
    settingsSlots (imp_exchange ⟨1, 2, 3, 4, 5, 6, 7, 8⟩ ⟨0, 0, 0, 0, 0⟩
        (0xA9 :: 0x65 :: 0x02 :: 0xCB :: 0x28 :: [])).mem =
      (if 0xCB &&& 0x80 ≠ 0 then settingsSlots ⟨1, 2, 3, 4, 5, 6, 7, 8⟩
       else settingsSlots (var_config
         { Mem.mk 1 2 3 4 5 6 7 8 with packet0 := 0x02, packet1 := 0xCB, packet2 := 0x28 })) :=
  c2_imp_settings_effect ⟨1, 2, 3, 4, 5, 6, 7, 8⟩ ⟨0, 0, 0, 0, 0⟩ 0x02 0xCB 0x28 []
    (by decide) (by decide) (by decide)

/-- C3: an exchange aborted by a header mismatch or a 0xFF byte leaves
the persisted Settings slots and the sensed readings exactly as they
were: for the Imp exchange the memory and sensed readings are
untouched, and likewise for the Xbee exchange. -/
theorem c3_abort_all_or_nothing (m : Mem) (l : Loc) (impIn xbeeIn : List Nat)
    (h1 : imp_aborted impIn = true) (h2 : xbee_aborted xbeeIn = true) :
    settingsSlots (imp_exchange m l impIn).mem = settingsSlots m ∧
    (imp_exchange m l impIn).loc.tempSen = l.tempSen ∧
    (imp_exchange m l impIn).loc.humidSen = l.humidSen ∧
    settingsSlots (xbee_exchange m l xbeeIn).mem = settingsSlots m ∧
    (xbee_exchange m l xbeeIn).loc.tempSen = l.tempSen ∧
    (xbee_exchange m l xbeeIn).loc.humidSen = l.humidSen := by
  obtain ⟨a1, a2, a3⟩ := imp_abort_frame m l impIn h1
  obtain ⟨b1, b2, b3⟩ := xbee_abort_frame m l xbeeIn h2
  exact ⟨by rw [a1], a2, a3, by rw [b1], b2, b3⟩

/-- C3 witness: a concrete Imp exchange aborted on the second header
byte and a concrete Xbee exchange aborted by a 0xFF payload byte leave
a concrete memory and sensed readings unchanged. -/
theorem c3_abort_all_or_nothing_witness :
    settingsSlots (imp_exchange ⟨1, 2, 3, 4, 5, 6, 7, 8⟩ ⟨9, 10, 11, 12, 13⟩
        (0xA9 :: 0x64 :: [])).mem = settingsSlots ⟨1, 2, 3, 4, 5, 6, 7, 8⟩ ∧
    (imp_exchange ⟨1, 2, 3, 4, 5, 6, 7, 8⟩ ⟨9, 10, 11, 12, 13⟩
        (0xA9 :: 0x64 :: [])).loc.tempSen = (Loc.mk 9 10 11 12 13).tempSen ∧
    (imp_exchange ⟨1, 2, 3, 4, 5, 6, 7, 8⟩ ⟨9, 10, 11, 12, 13⟩
        (0xA9 :: 0x64 :: [])).loc.humidSen = (Loc.mk 9 10 11 12 13).humidSen ∧
    settingsSlots (xbee_exchange ⟨1, 2, 3, 4, 5, 6, 7, 8⟩ ⟨9, 10, 11, 12, 13⟩
        (0xE3 :: 0x21 :: 0xFF :: [])).mem = settingsSlots ⟨1, 2, 3, 4, 5, 6, 7, 8⟩ ∧
    (xbee_exchange ⟨1, 2, 3, 4, 5, 6, 7, 8⟩ ⟨9, 10, 11, 12, 13⟩
        (0xE3 :: 0x21 :: 0xFF :: [])).loc.tempSen = (Loc.mk 9 10 11 12 13).tempSen ∧
    (xbee_exchange ⟨1, 2, 3, 4, 5, 6, 7, 8⟩ ⟨9, 10, 11, 12, 13⟩
        (0xE3 :: 0x21 :: 0xFF :: [])).loc.humidSen = (Loc.mk 9 10 11 12 13).humidSen :=
  c3_abort_all_or_nothing ⟨1, 2, 3, 4, 5, 6, 7, 8⟩ ⟨9, 10, 11, 12, 13⟩
    (0xA9 :: 0x64 :: []) (0xE3 :: 0x21 :: 0xFF :: []) (by decide) (by decide)

/-- C4: a set command accepted from the Imp (both header bytes
matched, three payload bytes read, none 0xFF, top bit of the
temperature byte clear) is forwarded to the Xbee peer as exactly the
three raw payload bytes that were received. -/
theorem c4_forward_verbatim (m : Mem) (l : Loc) (f t h : Nat) (rest : List Nat)
    (hf : f ≠ 0xFF) (ht : t ≠ 0xFF) (hh : h ≠ 0xFF) (h80 : t &&& 0x80 = 0) :
    (imp_exchange m l (0xA9 :: 0x65 :: f :: t :: h :: rest)).xbeeOut = [f, t, h] := by
  simp [imp_exchange, hf, ht, hh, h80]

/-- C4 witness: the concrete set command of the specification scenario
is forwarded to the Xbee byte for byte. -/
theorem c4_forward_verbatim_witness :
    (imp_exchange ⟨1, 2, 3, 4, 5, 6, 7, 8⟩ ⟨0, 0, 0, 0, 0⟩
        (0xA9 :: 0x65 :: 0x02 :: 0x4B :: 0x28 :: [])).xbeeOut = [0x02, 0x4B, 0x28] :=
  c4_forward_verbatim ⟨1, 2, 3, 4, 5, 6, 7, 8⟩ ⟨0, 0, 0, 0, 0⟩ 0x02 0x4B 0x28 []
    (by decide) (by decide) (by decide) (by decide)

/-- C10 counterexample: an Imp exchange that reads flags 0x11 and
temperature 0x22 before a 0xFF abort does cache 0x22 in temp_char, but
a following successful Xbee exchange overwrites temp_char with its own
payload byte 0x33 before sending the acknowledgement, so the frame is
0xD4 0x11 0x33 0x44 and not the 0xD4 0x11 0x22 0x44 the claim
predicts: the partially received temperature byte is not embedded. -/
theorem c10_counterexample :
    (imp_exchange ⟨0, 0, 0, 0, 0, 0, 0, 0⟩ ⟨0, 0, 0, 0, 0⟩
        (0xA9 :: 0x65 :: 0x11 :: 0x22 :: 0xFF :: [])).loc.tempChar = 0x22 ∧
    (xbee_exchange
        (imp_exchange ⟨0, 0, 0, 0, 0, 0, 0, 0⟩ ⟨0, 0, 0, 0, 0⟩
          (0xA9 :: 0x65 :: 0x11 :: 0x22 :: 0xFF :: [])).mem
        (imp_exchange ⟨0, 0, 0, 0, 0, 0, 0, 0⟩ ⟨0, 0, 0, 0, 0⟩
          (0xA9 :: 0x65 :: 0x11 :: 0x22 :: 0xFF :: [])).loc
        (0xE3 :: 0x33 :: 0x44 :: [])).xbeeOut = [0xD4, 0x11, 0x33, 0x44] ∧
    (xbee_exchange
        (imp_exchange ⟨0, 0, 0, 0, 0, 0, 0, 0⟩ ⟨0, 0, 0, 0, 0⟩
          (0xA9 :: 0x65 :: 0x11 :: 0x22 :: 0xFF :: [])).mem
        (imp_exchange ⟨0, 0, 0, 0, 0, 0, 0, 0⟩ ⟨0, 0, 0, 0, 0⟩
          (0xA9 :: 0x65 :: 0x11 :: 0x22 :: 0xFF :: [])).loc
        (0xE3 :: 0x33 :: 0x44 :: [])).xbeeOut ≠ [0xD4, 0x11, 0x22, 0x44] := by
  decide

/-- C10 amended: after an Imp exchange that matches both header bytes
and reads one or two payload bytes before a 0xFF abort, the locally
cached flags byte (and, after two bytes, the temperature byte) holds
the partial payload; a successful Xbee exchange in the same tick
embeds the cached flags byte in its acknowledgement frame, while the
temperature and humidity positions of the frame carry the Xbee payload
itself, the cached temperature byte having been overwritten.  In both
abort cases only the flags byte of the aborted Imp exchange is
observable on the Xbee channel.  The first three conjuncts treat the
two-byte abort, the last two the one-byte abort. -/
theorem c10_partial_flags_in_ack (m : Mem) (l : Loc) (f t xt xh : Nat)
    (hf : f ≠ 0xFF) (ht : t ≠ 0xFF) (hxt : xt ≠ 0xFF) (hxh : xh ≠ 0xFF) :
    (imp_exchange m l (0xA9 :: 0x65 :: f :: t :: 0xFF :: [])).loc.ioChar = f ∧
    (imp_exchange m l (0xA9 :: 0x65 :: f :: t :: 0xFF :: [])).loc.tempChar = t ∧
    (xbee_exchange (imp_exchange m l (0xA9 :: 0x65 :: f :: t :: 0xFF :: [])).mem
        (imp_exchange m l (0xA9 :: 0x65 :: f :: t :: 0xFF :: [])).loc
        (0xE3 :: xt :: xh :: [])).xbeeOut = [0xD4, f, xt, xh] ∧
    (imp_exchange m l (0xA9 :: 0x65 :: f :: 0xFF :: [])).loc.ioChar = f ∧
    (xbee_exchange (imp_exchange m l (0xA9 :: 0x65 :: f :: 0xFF :: [])).mem
        (imp_exchange m l (0xA9 :: 0x65 :: f :: 0xFF :: [])).loc
        (0xE3 :: xt :: xh :: [])).xbeeOut = [0xD4, f, xt, xh] := by
  refine ⟨?_, ?_, ?_, ?_, ?_⟩ <;> simp [imp_exchange, xbee_exchange, hf, ht, hxt, hxh]

/-- C10 witness: the amended statement at the concrete bytes of the
counterexample, covering both the two-byte and the one-byte abort. -/
theorem c10_partial_flags_in_ack_witness :
    (imp_exchange ⟨0, 0, 0, 0, 0, 0, 0, 0⟩ ⟨0, 0, 0, 0, 0⟩
        (0xA9 :: 0x65 :: 0x11 :: 0x22 :: 0xFF :: [])).loc.ioChar = 0x11 ∧
    (imp_exchange ⟨0, 0, 0, 0, 0, 0, 0, 0⟩ ⟨0, 0, 0, 0, 0⟩
        (0xA9 :: 0x65 :: 0x11 :: 0x22 :: 0xFF :: [])).loc.tempChar = 0x22 ∧
    (xbee_exchange
        (imp_exchange ⟨0, 0, 0, 0, 0, 0, 0, 0⟩ ⟨0, 0, 0, 0, 0⟩
          (0xA9 :: 0x65 :: 0x11 :: 0x22 :: 0xFF :: [])).mem
        (imp_exchange ⟨0, 0, 0, 0, 0, 0, 0, 0⟩ ⟨0, 0, 0, 0, 0⟩
          (0xA9 :: 0x65 :: 0x11 :: 0x22 :: 0xFF :: [])).loc
        (0xE3 :: 0x33 :: 0x44 :: [])).xbeeOut = [0xD4, 0x11, 0x33, 0x44] ∧
    (imp_exchange ⟨0, 0, 0, 0, 0, 0, 0, 0⟩ ⟨0, 0, 0, 0, 0⟩
        (0xA9 :: 0x65 :: 0x11 :: 0xFF :: [])).loc.ioChar = 0x11 ∧
    (xbee_exchange
        (imp_exchange ⟨0, 0, 0, 0, 0, 0, 0, 0⟩ ⟨0, 0, 0, 0, 0⟩
          (0xA9 :: 0x65 :: 0x11 :: 0xFF :: [])).mem
        (imp_exchange ⟨0, 0, 0, 0, 0, 0, 0, 0⟩ ⟨0, 0, 0, 0, 0⟩
          (0xA9 :: 0x65 :: 0x11 :: 0xFF :: [])).loc
        (0xE3 :: 0x33 :: 0x44 :: [])).xbeeOut = [0xD4, 0x11, 0x33, 0x44] :=
  c10_partial_flags_in_ack ⟨0, 0, 0, 0, 0, 0, 0, 0⟩ ⟨0, 0, 0, 0, 0⟩ 0x11 0x22 0x33 0x44
    (by decide) (by decide) (by decide) (by decide)

/-- Bounded check: the temperature increment keeps a stored byte whose
target is in 60 to 90 inside the range. -/
lemma tempr_inc_pres : ∀ d0 < 256, tempr_target_in_range d0 →
    tempr_target_in_range (((tempr_inc (digitPair d0)).1 <<< 4) % 256 ||| (tempr_inc (digitPair d0)).2) := by
  decide

/-- Bounded check: the temperature decrement keeps a stored byte whose
target is in 60 to 90 inside the range. -/
lemma tempr_dec_pres : ∀ d0 < 256, tempr_target_in_range d0 →
    tempr_target_in_range (((tempr_dec (digitPair d0)).1 <<< 4) % 256 ||| (tempr_dec (digitPair d0)).2) := by
  decide

/-- Bounded check: rewriting a byte from its own digits preserves the
range. -/
lemma tempr_wb_pres : ∀ d0 < 256, tempr_target_in_range d0 →
    tempr_target_in_range ((((d0 &&& 0xF0) >>> 4) <<< 4) % 256 ||| (d0 &&& 0x0F)) := by
  decide

/-- One EditValue step on the temperature panel preserves the 60 to 90
range of the stored byte, whatever button value is delivered. -/
lemma tempr_step_d0_pres (c d0 d1 b : Nat) (h : tempr_target_in_range d0) :
    tempr_target_in_range (tempr_config_step 2 c d0 d1 b).2.1 := by
  by_cases hb0 : b = 0
  · subst hb0; simpa [tempr_config_step] using h
  · by_cases hb1 : b = 1
    · subst hb1
      simpa [tempr_config_step, digitPair] using tempr_inc_pres d0 h.1 h
    · by_cases hb2 : b = 2
      · subst hb2
        simpa [tempr_config_step, digitPair] using tempr_dec_pres d0 h.1 h
      · simpa [tempr_config_step, digitPair, hb0, hb1, hb2] using tempr_wb_pres d0 h.1 h

/-- Every fold of EditValue steps on the temperature panel preserves
the 60 to 90 range of the stored byte. -/
lemma tempr_run_pres : ∀ (btns : List Nat) (c d0 d1 : Nat), tempr_target_in_range d0 →
    tempr_target_in_range (tempr_edit_run c d0 d1 btns).2.1 := by
  intro btns
  induction btns with
  | nil => intro c d0 d1 h; simpa [tempr_edit_run] using h
  | cons b bs ih =>
      intro c d0 d1 h
      have h2 := tempr_step_d0_pres c d0 d1 b h
      have heq : tempr_edit_run c d0 d1 (b :: bs) =
          tempr_edit_run (tempr_config_step 2 c d0 d1 b).1
            (tempr_config_step 2 c d0 d1 b).2.1 (tempr_config_step 2 c d0 d1 b).2.2 bs := rfl
      rw [heq]
      exact ih _ _ _ h2

/-- C5: starting from any stored temperature byte with target in the
inclusive range 60 to 90, every finite sequence of EditValue button
presses leaves the target in 60 to 90; moreover an increment at 90
wraps the byte to 0x60 (target 60) and a decrement at 60 wraps it to
0x90 (target 90). -/
theorem c5_tempr_range (c d0 d1 : Nat) (btns : List Nat) (h : tempr_target_in_range d0) :
    tempr_target_in_range (tempr_edit_run c d0 d1 btns).2.1 ∧
    (tempr_config_step 2 c 0x90 d1 1).2.1 = 0x60 ∧
    (tempr_config_step 2 c 0x60 d1 2).2.1 = 0x90 := by
  refine ⟨tempr_run_pres btns c d0 d1 h, ?_, ?_⟩ <;>
  · simp [tempr_config_step, tempr_inc, tempr_dec]
    decide

/-- C5 witness: the range invariant and both wrap equations at the
byte 0x75 and a concrete button sequence. -/
theorem c5_tempr_range_witness :
    tempr_target_in_range 0x75 ∧
    (tempr_target_in_range (tempr_edit_run 0 0x75 0 [1, 1, 2, 2, 2]).2.1 ∧
     (tempr_config_step 2 0 0x90 0 1).2.1 = 0x60 ∧
     (tempr_config_step 2 0 0x60 0 2).2.1 = 0x90) :=
  ⟨by decide, c5_tempr_range 0 0x75 0 [1, 1, 2, 2, 2] (by decide)⟩

/-- Bounded check: on decimal digits the humidity step agrees with the
claim description of the increment and decrement arithmetic. -/
lemma c6aux : ∀ h < 10, ∀ l < 10,
    digitPair (humid_config_step 2 0 ((h <<< 4) ||| l) 0 1).2.1 = humid_inc_claim h l ∧
    digitPair (humid_config_step 2 0 ((h <<< 4) ||| l) 0 2).2.1 = humid_dec_claim h l := by
  decide

/-- C6: in the EditValue phase of the humidity panel the increment
adds five to the low digit with the carry and wrap described by the
claim, the decrement subtracts five with the borrow and underflow
rules described by the claim, and in particular an increment at target
95 yields 0 while a decrement at target 0 yields 95. -/
theorem c6_humid_step (h l : Nat) (hh : h ≤ 9) (hl : l ≤ 9) :
    digitPair (humid_config_step 2 0 ((h <<< 4) ||| l) 0 1).2.1 = humid_inc_claim h l ∧
    digitPair (humid_config_step 2 0 ((h <<< 4) ||| l) 0 2).2.1 = humid_dec_claim h l ∧
    (humid_config_step 2 0 0x95 0 1).2.1 = 0x00 ∧
    (humid_config_step 2 0 0x00 0 2).2.1 = 0x95 := by
  obtain ⟨a, b⟩ := c6aux h (by omega) l (by omega)
  exact ⟨a, b, by decide, by decide⟩

/-- C6 witness: the digit arithmetic at the boundary digits 9 and 5. -/
theorem c6_humid_step_witness :
    (9 : Nat) ≤ 9 ∧ (5 : Nat) ≤ 9 ∧
    (digitPair (humid_config_step 2 0 ((9 <<< 4) ||| 5) 0 1).2.1 = humid_inc_claim 9 5 ∧
     digitPair (humid_config_step 2 0 ((9 <<< 4) ||| 5) 0 2).2.1 = humid_dec_claim 9 5 ∧
     (humid_config_step 2 0 0x95 0 1).2.1 = 0x00 ∧
     (humid_config_step 2 0 0x00 0 2).2.1 = 0x95) :=
  ⟨by decide, by decide, c6_humid_step 9 5 (by decide) (by decide)⟩

/-- C7 counterexample: the set command with payload 0x00 0x64 0x00 is
accepted (no byte is 0xFF and the top bit of the temperature byte 100
is clear), yet the decode-and-persist step writes 0xA0 into the
temperature slot, whose high BCD digit is 10, and a later
packet_config on the persisted state signals the corruption fault. -/
theorem c7_counterexample :
    (0x64 : Nat) ≠ 0xFF ∧ (0x64 : Nat) &&& 0x80 = 0 ∧
    (imp_exchange ⟨0, 0, 0, 0, 0, 0, 0, 0⟩ ⟨0, 0, 0, 0, 0⟩
        (0xA9 :: 0x65 :: 0x00 :: 0x64 :: 0x00 :: [])).mem.tempr0 = 0xA0 ∧
    ((imp_exchange ⟨0, 0, 0, 0, 0, 0, 0, 0⟩ ⟨0, 0, 0, 0, 0⟩
        (0xA9 :: 0x65 :: 0x00 :: 0x64 :: 0x00 :: [])).mem.tempr0 &&& 0xF0) >>> 4 = 10 ∧
    (packet_config (imp_exchange ⟨0, 0, 0, 0, 0, 0, 0, 0⟩ ⟨0, 0, 0, 0, 0⟩
        (0xA9 :: 0x65 :: 0x00 :: 0x64 :: 0x00 :: [])).mem).2 = true := by
  decide

/-- Bounded facts about a temperature payload below 100: it is not the
0xFF value, its top bit is clear, and the BCD byte var_config builds
from it has both digits in 0 to 9, so the corruption condition is
false. -/
lemma c7aux : ∀ t < 100, t ≠ 255 ∧ t &&& 0x80 = 0 ∧
    ((((t / 10) <<< 4) % 256 ||| t % 10) &&& 0xF0) >>> 4 ≤ 9 ∧
    (((t / 10) <<< 4) % 256 ||| t % 10) &&& 0x0F ≤ 9 := by
  decide

/-- C7 amended: for every set command accepted from the Imp whose
temperature payload byte is at most 99, the decode-and-persist step
writes only BCD digits in 0 to 9 into the persisted temperature slot
and a later packet_config decode of the persisted state does not
signal the corruption fault; payload bytes 100 to 127 are also
accepted but persist an out-of-range high digit, as the counterexample
shows. -/
theorem c7_set_digits_in_range (m : Mem) (l : Loc) (f t h : Nat) (rest : List Nat)
    (hf : f ≠ 0xFF) (hh : h ≠ 0xFF) (ht : t ≤ 99) :
    ((imp_exchange m l (0xA9 :: 0x65 :: f :: t :: h :: rest)).mem.tempr0 &&& 0xF0) >>> 4 ≤ 9 ∧
    ((imp_exchange m l (0xA9 :: 0x65 :: f :: t :: h :: rest)).mem.tempr0 &&& 0x0F) ≤ 9 ∧
    (packet_config (imp_exchange m l (0xA9 :: 0x65 :: f :: t :: h :: rest)).mem).2 = false := by
  obtain ⟨ht255, h80, hd1, hd2⟩ := c7aux t (by omega)
  have hmem : (imp_exchange m l (0xA9 :: 0x65 :: f :: t :: h :: rest)).mem =
      var_config { m with packet0 := f, packet1 := t, packet2 := h } := by
    simp [imp_exchange, hf, ht255, hh, h80]
  rw [hmem]
  have hv1 : ((var_config { m with packet0 := f, packet1 := t, packet2 := h }).tempr0 &&& 0xF0) >>> 4 ≤ 9 := by
    simpa [var_config] using hd1
  have hv2 : ((var_config { m with packet0 := f, packet1 := t, packet2 := h }).tempr0 &&& 0x0F) ≤ 9 := by
    simpa [var_config] using hd2
  refine ⟨hv1, hv2, ?_⟩
  have hfault : (packet_config (var_config { m with packet0 := f, packet1 := t, packet2 := h })).2 =
      decide (((var_config { m with packet0 := f, packet1 := t, packet2 := h }).tempr0 &&& 0xF0) >>> 4 > 9 ∨
        ((var_config { m with packet0 := f, packet1 := t, packet2 := h }).tempr0 &&& 0x0F) > 9) := rfl
  rw [hfault, decide_eq_false_iff_not]
  omega

/-- C7 witness: the amended statement for the set command with
temperature payload 75. -/
theorem c7_set_digits_in_range_witness :
    (0x00 : Nat) ≠ 0xFF ∧ (0x4B : Nat) ≤ 99 ∧
    (((imp_exchange ⟨0, 0, 0, 0, 0, 0, 0, 0⟩ ⟨0, 0, 0, 0, 0⟩
        (0xA9 :: 0x65 :: 0x00 :: 0x4B :: 0x00 :: [])).mem.tempr0 &&& 0xF0) >>> 4 ≤ 9 ∧
     ((imp_exchange ⟨0, 0, 0, 0, 0, 0, 0, 0⟩ ⟨0, 0, 0, 0, 0⟩
        (0xA9 :: 0x65 :: 0x00 :: 0x4B :: 0x00 :: [])).mem.tempr0 &&& 0x0F) ≤ 9 ∧
     (packet_config (imp_exchange ⟨0, 0, 0, 0, 0, 0, 0, 0⟩ ⟨0, 0, 0, 0, 0⟩
        (0xA9 :: 0x65 :: 0x00 :: 0x4B :: 0x00 :: [])).mem).2 = false) :=
  ⟨by decide, by decide,
   c7_set_digits_in_range ⟨0, 0, 0, 0, 0, 0, 0, 0⟩ ⟨0, 0, 0, 0, 0⟩ 0x00 0x4B 0x00 []
     (by decide) (by decide) (by decide)⟩

/-- Bounded check: the corruption condition of packet_config on a byte
agrees with the digit-range formulation through division and
remainder. -/
lemma c8aux : ∀ a < 256,
    (decide ((a &&& 0xF0) >>> 4 > 9 ∨ a &&& 0x0F > 9) = true ↔ (a / 16 > 9 ∨ a % 16 > 9)) := by
  decide

/-- C8: during packet_config the corruption fault is signalled exactly
when one of the two BCD digits of the persisted temperature byte
exceeds 9, and the persisted humidity byte never influences the fault:
replacing it by any value leaves the fault unchanged. -/
theorem c8_fault_iff (m : Mem) (x : Nat) (ht : m.tempr0 < 256) :
    ((packet_config m).2 = true ↔ (m.tempr0 / 16 > 9 ∨ m.tempr0 % 16 > 9)) ∧
    (packet_config { m with humid0 := x }).2 = (packet_config m).2 := by
  exact ⟨c8aux m.tempr0 ht, rfl⟩

/-- C8 witness: the fault condition at a memory whose temperature byte
is 0xAB and whose humidity byte is replaced by 0xFF. -/
theorem c8_fault_iff_witness :
    (0xAB : Nat) < 256 ∧
    (((packet_config ⟨0xAB, 0, 0, 0, 0, 0, 0, 0⟩).2 = true ↔
        ((0xAB : Nat) / 16 > 9 ∨ (0xAB : Nat) % 16 > 9)) ∧
     (packet_config { Mem.mk 0xAB 0 0 0 0 0 0 0 with humid0 := 0xFF }).2 =
       (packet_config ⟨0xAB, 0, 0, 0, 0, 0, 0, 0⟩).2) :=
  ⟨by decide, c8_fault_iff ⟨0xAB, 0, 0, 0, 0, 0, 0, 0⟩ 0xFF (by decide)⟩

/-- C9: the changed flag bug.  From a state in the EditValue phase
with a pending edit, the phase-advance press returns the panel to
Idle: the commit (the EEPROM update pair of main lines 183 to 187) is
invoked, but the changed flag is still set afterwards, and on the next
tick with no input at all the commit is invoked again.  This
contradicts the claim that the commit runs exactly once and that the
flag is cleared; the source never resets the flag. -/
theorem c9_changed_flag_bug :
    (edit_tick ⟨2, 1, 0x76, 0, 0x75, 0⟩ true 0).2 = true ∧
    (edit_tick ⟨2, 1, 0x76, 0, 0x75, 0⟩ true 0).1.editing = 0 ∧
    (edit_tick ⟨2, 1, 0x76, 0, 0x75, 0⟩ true 0).1.changed = 1 ∧
    (edit_tick (edit_tick ⟨2, 1, 0x76, 0, 0x75, 0⟩ true 0).1 false 0).2 = true ∧
    (edit_tick (edit_tick ⟨2, 1, 0x76, 0, 0x75, 0⟩ true 0).1 false 0).1.changed = 1 := by
  decide

end SmartHome
